import Mathlib

/-!
# Verification of the GANN agents core (generator / discriminator / configurator)

Shallow embedding of `src/ai-agents/generator.ts` and
`src/ai-agents/discriminator.ts`.  Text is modelled as `List Char`
(`Str`): JavaScript `String.prototype.slice(0, n)` becomes `List.take n`,
`String.prototype.trim()` becomes `jsTrim`, template-literal interpolation
becomes list concatenation.  The external `langchainClient.invoke` call is
modelled as a function parameter from the per-call user prompt to an
`AIInvokeResult`, so every theorem quantifies over all possible external
behaviours; the asynchronous call is sequential from the caller's point of
view, so plain function application is a faithful embedding.
-/

/-- JavaScript strings, modelled as lists of characters. -/
abbrev Str := List Char

/-- Embed a Lean string literal as a `Str`. -/
def str (s : String) : Str := s.data

/-- Whitespace characters recognised by JavaScript `String.prototype.trim`
(the code points relevant to this development). -/
def isJsWhitespace (c : Char) : Bool :=
  c = ' ' || c = '\t' || c = '\n' || c = '\r' || c = '\x0b' || c = '\x0c'

/-- JavaScript `String.prototype.trim`: strip leading and trailing whitespace. -/
def jsTrim (s : Str) : Str :=
  ((s.dropWhile isJsWhitespace).reverse.dropWhile isJsWhitespace).reverse

/-- Decimal rendering of a natural number (JS number-to-string on naturals). -/
def showNat (n : Nat) : Str := Nat.toDigits 10 n

/-- Decimal rendering of an integer (JS number-to-string on integers). -/
def showInt (i : Int) : Str :=
  if i < 0 then '-' :: showNat i.natAbs else showNat i.natAbs

/-- Rendering of a JS number into a template literal.  Scores in this code
base are compared and stored exactly, so numbers are modelled as rationals;
integral values render exactly as JS does.  A non-integral value renders as
"num/den", an approximation of JS float formatting that no verified property
depends on (all concrete scores exercised are integral). -/
def showNum (q : ℚ) : Str :=
  if q.den = 1 then showInt q.num
  else showInt q.num ++ '/' :: showNat q.den

/-- Result type of `langchainClient.invoke` (`AIInvokeResult<T>` in
`src/lib/langchain-client`): either a validated structured response or an
opaque failure. -/
inductive AIInvokeResult (α : Type) where
  | success (response : α)
  | failure (error : Str)
deriving DecidableEq, Repr

namespace Generator

/-- Source: `GeneratorOutputSchema = z.object({ text: z.string() })`. -/
structure GeneratorOutput where
  text : Str
deriving DecidableEq, Repr

/-- Fully-populated generation settings as used for an invocation. -/
structure Settings where
  temperature : ℚ
  maxTokens : ℕ
  timeout : ℕ
deriving DecidableEq, Repr

/-- Source: `DEFAULT_SETTINGS = { temperature: 0.7, maxTokens: 1024, timeout: 30_000 }`. -/
def DEFAULT_SETTINGS : Settings :=
  { temperature := 7/10, maxTokens := 1024, timeout := 30000 }

/-- Overrides type `GeneratorSettings`: caller-supplied; every field optional.
`none` models an absent field. -/
structure GeneratorSettings where
  temperature : Option ℚ := none
  maxTokens : Option ℕ := none
  timeout : Option ℕ := none
deriving DecidableEq, Repr

/-- Spread merge `{ ...DEFAULT_SETTINGS, ...overrides }`.  A field
present in `overrides` wins; an absent field keeps its default; an entirely
absent `overrides` object leaves the defaults unchanged. -/
def mergeSettings (overrides : Option GeneratorSettings) : Settings :=
  match overrides with
  | none => DEFAULT_SETTINGS
  | some o =>
    { temperature := o.temperature.getD DEFAULT_SETTINGS.temperature
      maxTokens := o.maxTokens.getD DEFAULT_SETTINGS.maxTokens
      timeout := o.timeout.getD DEFAULT_SETTINGS.timeout }

/-- What one call to `Generator.run` produced: the settings actually passed
to the external invocation, and the returned result. -/
structure RunOutcome where
  settings : Settings
  result : AIInvokeResult Str

/-- Operation `run(prompt, overrides?)` from `src/ai-agents/generator.ts`: merge the
overrides over the defaults, invoke the external contract, and on success
extract the `text` field; on failure pass the error through unmodified.
`invoke` abstracts `langchainClient.invoke` (settings and user prompt are
the per-call arguments; model name, system prompt, schema and provider are
fixed constants). -/
def run (prompt : Str) (overrides : Option GeneratorSettings)
    (invoke : Settings → Str → AIInvokeResult GeneratorOutput) : RunOutcome :=
  match invoke (mergeSettings overrides) prompt with
  | .success out => { settings := mergeSettings overrides, result := .success out.text }
  | .failure e => { settings := mergeSettings overrides, result := .failure e }

end Generator

namespace Discriminator

/-- Source: `DiscriminatorOutputSchema = z.object({ score: z.number().min(0).max(10) })`:
the validated structured output. -/
structure DiscriminatorOutput where
  score : ℚ
deriving DecidableEq, Repr

/-- The bound the output schema declares on the `score` field
(`z.number().min(0).max(10)`). -/
def DiscriminatorOutputSchemaBound (score : ℚ) : Prop :=
  0 ≤ score ∧ score ≤ 10

instance (score : ℚ) : Decidable (DiscriminatorOutputSchemaBound score) :=
  inferInstanceAs (Decidable (_ ∧ _))

/-- Source: `DEFAULT_SETTINGS = { temperature: 0.1, maxTokens: 64, timeout: 30_000 }`. -/
def DEFAULT_SETTINGS : Generator.Settings :=
  { temperature := 1/10, maxTokens := 64, timeout := 30000 }

/-- Context type `DiscriminatorContext`: what the discriminator needs to evaluate the
generator's output.  `expectedExperiences` is optional. -/
structure DiscriminatorContext where
  generatorPrompt : Str
  cvContent : Str
  jobRequirements : Str
  expectedExperiences : Option Str := none
deriving DecidableEq, Repr

/-- The `expectedBlock` const inside `run`: non-empty exactly when
`expectedExperiences != null && expectedExperiences.trim() !== ''`. -/
def expectedBlock (expectedExperiences : Option Str) : Str :=
  match expectedExperiences with
  | some e =>
    if jsTrim e ≠ [] then
      str ("\n\n---\nExpected experiences (deemed most correct for this job; score alignment with these):\n") ++ e
    else []
  | none => []

/-- The `userPrompt` template literal inside `run`. -/
def userPrompt (generatorOutput : Str) (context : DiscriminatorContext) : Str :=
  str ("Job requirements:\n") ++ context.jobRequirements
    ++ str ("\n\n---\nOriginal instruction to the generator:\n") ++ context.generatorPrompt
    ++ str ("\n\n---\nSource text (CV):\n") ++ context.cvContent
    ++ expectedBlock context.expectedExperiences
    ++ str ("\n\n---\nGenerator's output (3 experiences + 2-line summaries):\n") ++ generatorOutput
    ++ str ("\n\nScore how well the generator picked 3 experiences that best meet the job requirements and summarised them (0–10).")

/-- Operation `run(generatorOutput, context)` from `src/ai-agents/discriminator.ts`:
build the evaluation request, invoke the external contract, and on success
extract the `score` field; on failure pass the error through unmodified. -/
def run (generatorOutput : Str) (context : DiscriminatorContext)
    (invoke : Str → AIInvokeResult DiscriminatorOutput) : AIInvokeResult ℚ :=
  match invoke (userPrompt generatorOutput context) with
  | .success out => .success out.score
  | .failure e => .failure e

/-- Modelled from the spec: the shape validation performed by
`langchainClient.invoke` (`src/lib/langchain-client`, a file of this
repository that is not under `src/`; only its schema declaration and
callers are).  §6 of the spec: "The collaborator is responsible for
enforcing this shape and failing the call if the raw result does not
conform."  Given the raw numeric score the model answered with (or a raw
invocation failure), the collaborator returns the validated output when the
score satisfies the declared schema bound and a failure otherwise — it
never alters the value. -/
def invokeValidatingSchema (raw : AIInvokeResult ℚ) : AIInvokeResult DiscriminatorOutput :=
  match raw with
  | .failure e => .failure e
  | .success score =>
    if DiscriminatorOutputSchemaBound score then .success { score := score }
    else .failure (str ("shape-validation failure"))

end Discriminator

namespace Configurator

/-- Source: `ConfiguratorOutputSchema = z.object({ suggestedPrompt: z.string() })`. -/
structure ConfiguratorOutput where
  suggestedPrompt : Str
deriving DecidableEq, Repr

/-- Snapshot type `GeneratorConfigSnapshot`: the generator config used for a run. -/
structure GeneratorConfigSnapshot where
  temperature : ℚ
  maxTokens : ℕ
  timeout : Option ℕ := none
deriving DecidableEq, Repr

/-- Entry type `ConfiguratorHistoryEntry`: one past run and its outcome.
`suggestedNextPrompt` is the deferred field, absent until the call that
created the entry succeeds with a non-empty suggestion. -/
structure ConfiguratorHistoryEntry where
  generatorPrompt : Str
  generatorConfig : GeneratorConfigSnapshot
  score : ℚ
  suggestedNextPrompt : Option Str := none
deriving DecidableEq, Repr

/-- Source: `DEFAULT_SETTINGS = { temperature: 0.2, maxTokens: 128, timeout: 30_000 }`. -/
def DEFAULT_SETTINGS : Generator.Settings :=
  { temperature := 2/10, maxTokens := 128, timeout := 30000 }

/-- The per-run line of the history block:
`Run ${i+1}: prompt="${..120-char preview..}", score=${score}` plus, when a
next prompt was suggested after that run, its 60-character preview. -/
def promptPreview (p : Str) : Str :=
  p.take 120 ++ (if p.length > 120 then str ("...") else [])

/-- The ` (suggested next prompt: "...")` segment of a history line:
`h.suggestedNextPrompt.slice(0, 60)` followed by the literal `...`. -/
def suggestedPreviewSegment (s : Str) : Str :=
  str (" (suggested next prompt: \"") ++ s.take 60 ++ str ("...\")")

/-- One line of the rendered history block (the `map` body at
`discriminator.ts:171-177`). -/
def historyLine (i : ℕ) (h : ConfiguratorHistoryEntry) : Str :=
  let part := str ("Run ") ++ showNat (i + 1) ++ str (": prompt=\"") ++ promptPreview h.generatorPrompt
    ++ str ("\", score=") ++ showNum h.score
  match h.suggestedNextPrompt with
  | some s => part ++ suggestedPreviewSegment s
  | none => part

/-- The `historyBlock` const: `'No previous runs yet.'` when the history is
empty, otherwise the newline-joined run lines. -/
def historyBlock (history : List ConfiguratorHistoryEntry) : Str :=
  if history.length = 0 then str ("No previous runs yet.")
  else ((history.mapIdx historyLine).intersperse (str ("\n"))).flatten

/-- The `cvBlock` const: bounded 1500-character excerpt of the CV with a
`...` marker when the original was longer; empty when no CV was supplied. -/
def cvBlock (cvContent : Option Str) : Str :=
  match cvContent with
  | some c =>
    str ("\n\nSource CV context (excerpt):\n") ++ c.take 1500
      ++ (if c.length > 1500 then str ("...") else [])
  | none => []

/-- The `jobBlock` const: bounded 1500-character excerpt of the job
requirements, analogous to `cvBlock`. -/
def jobBlock (jobRequirements : Option Str) : Str :=
  match jobRequirements with
  | some j =>
    str ("\n\nJob requirements (excerpt):\n") ++ j.take 1500
      ++ (if j.length > 1500 then str ("...") else [])
  | none => []

/-- The `userPrompt` template literal at `discriminator.ts:188`. -/
def userPrompt (history : List ConfiguratorHistoryEntry) (generatorPrompt : Str)
    (score : ℚ) (cvContent jobRequirements : Option Str) : Str :=
  str ("History of runs (most recent last):\n") ++ historyBlock history
    ++ str ("\n\nCurrent run we just got the score for: prompt=\"") ++ generatorPrompt
    ++ str ("\", score=") ++ showNum score ++ str (".")
    ++ jobBlock jobRequirements ++ cvBlock cvContent
    ++ str ("\n\nSuggest the next generator prompt (instruction only, no CV or job text) to maximise the score. Reply with only the new instruction text.")

/-- Parameters of `suggestNextPrompt`. -/
structure SuggestParams where
  generatorPrompt : Str
  generatorConfig : GeneratorConfigSnapshot
  score : ℚ
  cvContent : Option Str := none
  jobRequirements : Option Str := none

/-- What one `suggestNextPrompt` call left behind: the history after the
call, the request sent to the external invocation, and the returned result. -/
structure SuggestOutcome where
  history : List ConfiguratorHistoryEntry
  userPrompt : Str
  result : AIInvokeResult Str

/-- Embedding of the in-place mutation
`history[history.length - 1].suggestedNextPrompt = suggested`: replace the
last entry by a copy whose deferred field is filled. -/
def setLastSuggested (l : List ConfiguratorHistoryEntry) (s : Str) :
    List ConfiguratorHistoryEntry :=
  match l.getLast? with
  | none => l
  | some e => l.dropLast ++ [{ e with suggestedNextPrompt := some s }]

/-- The entry pushed at the start of `suggestNextPrompt`
(`discriminator.ts:160-164`): the instruction, a copy of the config
snapshot, and the score; the deferred `suggestedNextPrompt` field absent. -/
def newEntry (params : SuggestParams) : ConfiguratorHistoryEntry :=
  { generatorPrompt := params.generatorPrompt
    generatorConfig := params.generatorConfig
    score := params.score }

/-- Operation `suggestNextPrompt(params)` from `src/ai-agents/discriminator.ts`
(lines 149-207), with the module-level mutable `history` made an explicit
argument and the new history returned.  The entry is pushed before the
request is rendered and before the external invocation, so the request is
built over `history ++ [newEntry params]`; on success the response is
trimmed and a non-empty trimmed suggestion is written into the last
entry's deferred field, guarded as in the source by
`history.length > 0 && suggested`; `suggested || generatorPrompt`
returns the original prompt when the trimmed suggestion is empty; on
failure the error passes through unmodified. -/
def suggestNextPrompt (params : SuggestParams)
    (history : List ConfiguratorHistoryEntry)
    (invoke : Str → AIInvokeResult ConfiguratorOutput) : SuggestOutcome :=
  match invoke (userPrompt (history ++ [newEntry params]) params.generatorPrompt
      params.score params.cvContent params.jobRequirements) with
  | .success out =>
    { history :=
        if 0 < (history ++ [newEntry params]).length ∧ jsTrim out.suggestedPrompt ≠ [] then
          setLastSuggested (history ++ [newEntry params]) (jsTrim out.suggestedPrompt)
        else history ++ [newEntry params]
      userPrompt := userPrompt (history ++ [newEntry params]) params.generatorPrompt
        params.score params.cvContent params.jobRequirements
      result := .success (if jsTrim out.suggestedPrompt = [] then params.generatorPrompt
        else jsTrim out.suggestedPrompt) }
  | .failure e =>
    { history := history ++ [newEntry params]
      userPrompt := userPrompt (history ++ [newEntry params]) params.generatorPrompt
        params.score params.cvContent params.jobRequirements
      result := .failure e }

/-- A sequence of `suggestNextPrompt` calls, each with its own parameters
and external behaviour, threaded through the mutable history. -/
def runCalls (calls : List (SuggestParams × (Str → AIInvokeResult ConfiguratorOutput)))
    (history : List ConfiguratorHistoryEntry) : List ConfiguratorHistoryEntry :=
  calls.foldl (fun h c => (suggestNextPrompt c.1 h c.2).history) history

end Configurator

/-! ## Theorems -/

namespace Generator

/-- The settings a `run` call passes to the external invocation are the
merged settings, whatever the invocation then does. -/
theorem run_settings (prompt : Str) (o : Option GeneratorSettings)
    (invoke : Settings → Str → AIInvokeResult GeneratorOutput) :
    (run prompt o invoke).settings = mergeSettings o := by
  unfold run
  cases invoke (mergeSettings o) prompt <;> rfl

/-- C6: the settings used by a generator run are the defaults (temperature
0.7, maxTokens 1024, timeout 30000 ms) with exactly the fields present in
the overrides replaced by the override values; a field not supplied — or an
entirely absent overrides object — falls back to its default. -/
theorem merged_settings (prompt : Str) (o : GeneratorSettings)
    (invoke : Settings → Str → AIInvokeResult GeneratorOutput) :
    ((∀ t, o.temperature = some t → (run prompt (some o) invoke).settings.temperature = t) ∧
     (o.temperature = none → (run prompt (some o) invoke).settings.temperature = 7/10)) ∧
    ((∀ m, o.maxTokens = some m → (run prompt (some o) invoke).settings.maxTokens = m) ∧
     (o.maxTokens = none → (run prompt (some o) invoke).settings.maxTokens = 1024)) ∧
    ((∀ n, o.timeout = some n → (run prompt (some o) invoke).settings.timeout = n) ∧
     (o.timeout = none → (run prompt (some o) invoke).settings.timeout = 30000)) ∧
    (run prompt none invoke).settings = DEFAULT_SETTINGS := by
  refine ⟨⟨fun t ht => ?_, fun ht => ?_⟩, ⟨fun m hm => ?_, fun hm => ?_⟩,
    ⟨fun n hn => ?_, fun hn => ?_⟩, ?_⟩ <;>
    simp_all [run_settings, mergeSettings, DEFAULT_SETTINGS]

/-- C6 witness: overriding only the temperature keeps the default
maxTokens and timeout. -/
theorem merged_settings_witness :
    ({ temperature := some (1/2) } : GeneratorSettings).temperature = some (1/2) ∧
    (run (str ("p")) (some { temperature := some (1/2) })
        (fun _ _ => .failure [])).settings.temperature = 1/2 ∧
    (run (str ("p")) (some { temperature := some (1/2) })
        (fun _ _ => .failure [])).settings.maxTokens = 1024 ∧
    (run (str ("p")) (some { temperature := some (1/2) })
        (fun _ _ => .failure [])).settings.timeout = 30000 := by
  refine ⟨rfl, ?_, ?_, ?_⟩
  · exact (merged_settings (str ("p")) _ _).1.1 (1/2) rfl
  · exact (merged_settings (str ("p")) _ _).2.1.2 rfl
  · exact (merged_settings (str ("p")) _ _).2.2.1.2 rfl

end Generator

namespace Discriminator

/-- C5: with the external collaborator validating the declared output
schema (`z.number().min(0).max(10)`), every score a successful
discriminator run returns satisfies `0 ≤ score ≤ 10` and equals the raw
response exactly (no clamping); a raw response outside the bound makes the
whole call a shape-validation failure. -/
theorem score_bound_validated (generatorOutput : Str)
    (ctx : DiscriminatorContext) (raw : ℚ) :
    (∀ s : ℚ,
      run generatorOutput ctx (fun _ => invokeValidatingSchema (.success raw)) =
        AIInvokeResult.success s →
      DiscriminatorOutputSchemaBound s ∧ s = raw) ∧
    (¬ DiscriminatorOutputSchemaBound raw →
      run generatorOutput ctx (fun _ => invokeValidatingSchema (.success raw)) =
        AIInvokeResult.failure (str ("shape-validation failure"))) := by
  constructor
  · intro s hs
    unfold run invokeValidatingSchema at hs
    by_cases hb : DiscriminatorOutputSchemaBound raw
    · simp [hb] at hs
      exact ⟨hs ▸ hb, hs.symm⟩
    · simp [hb] at hs
  · intro hb
    unfold run invokeValidatingSchema
    simp [hb]

/-- C9: the evaluation request carries the delimited "Expected experiences"
block exactly when a reference example is supplied and non-empty (the
source reads "non-empty" as non-blank: `expectedExperiences != null &&
expectedExperiences.trim() !== ''`); with such a reference the request is
the full template with the delimited block between the CV and the
generator's output, and without one it embeds only the target
specification (job requirements), the instruction, the source text and the
candidate output. -/
theorem expected_block_delimited (generatorOutput : Str) (ctx : DiscriminatorContext) :
    (expectedBlock ctx.expectedExperiences ≠ [] ↔
      ∃ r, ctx.expectedExperiences = some r ∧ jsTrim r ≠ []) ∧
    (∀ r, ctx.expectedExperiences = some r → jsTrim r ≠ [] →
      userPrompt generatorOutput ctx =
        str ("Job requirements:\n") ++ ctx.jobRequirements
          ++ str ("\n\n---\nOriginal instruction to the generator:\n") ++ ctx.generatorPrompt
          ++ str ("\n\n---\nSource text (CV):\n") ++ ctx.cvContent
          ++ (str ("\n\n---\nExpected experiences (deemed most correct for this job; score alignment with these):\n") ++ r)
          ++ str ("\n\n---\nGenerator's output (3 experiences + 2-line summaries):\n") ++ generatorOutput
          ++ str ("\n\nScore how well the generator picked 3 experiences that best meet the job requirements and summarised them (0–10).")) ∧
    ((∀ r, ctx.expectedExperiences = some r → jsTrim r = []) →
      userPrompt generatorOutput ctx =
        str ("Job requirements:\n") ++ ctx.jobRequirements
          ++ str ("\n\n---\nOriginal instruction to the generator:\n") ++ ctx.generatorPrompt
          ++ str ("\n\n---\nSource text (CV):\n") ++ ctx.cvContent
          ++ str ("\n\n---\nGenerator's output (3 experiences + 2-line summaries):\n") ++ generatorOutput
          ++ str ("\n\nScore how well the generator picked 3 experiences that best meet the job requirements and summarised them (0–10).")) := by
  refine ⟨?_, fun r hr htrim => ?_, fun hall => ?_⟩
  · cases hctx : ctx.expectedExperiences with
    | none => simp [expectedBlock]
    | some e =>
      by_cases htrim : jsTrim e = []
      · simp [expectedBlock, htrim]
      · simp only [expectedBlock, htrim, ne_eq, not_false_eq_true, if_true]
        constructor
        · exact fun _ => ⟨e, rfl, htrim⟩
        · intro _ heq
          simp at heq
          exact absurd heq.1 (by decide)
  · simp [userPrompt, expectedBlock, hr, htrim, List.append_assoc]
  · cases hctx : ctx.expectedExperiences with
    | none => simp [userPrompt, expectedBlock, hctx, List.append_assoc]
    | some e => simp [userPrompt, expectedBlock, hctx, hall e hctx, List.append_assoc]

/-- C9 witness: a blank-free reference example produces the delimited
block; an absent reference produces the block-free template. -/
theorem expected_block_delimited_witness :
    userPrompt (str ("out"))
      { generatorPrompt := str ("i"), cvContent := str ("cv"),
        jobRequirements := str ("job"), expectedExperiences := some (str ("E1")) } =
      str ("Job requirements:\n") ++ str ("job")
        ++ str ("\n\n---\nOriginal instruction to the generator:\n") ++ str ("i")
        ++ str ("\n\n---\nSource text (CV):\n") ++ str ("cv")
        ++ (str ("\n\n---\nExpected experiences (deemed most correct for this job; score alignment with these):\n") ++ str ("E1"))
        ++ str ("\n\n---\nGenerator's output (3 experiences + 2-line summaries):\n") ++ str ("out")
        ++ str ("\n\nScore how well the generator picked 3 experiences that best meet the job requirements and summarised them (0–10).") ∧
    userPrompt (str ("out"))
      { generatorPrompt := str ("i"), cvContent := str ("cv"),
        jobRequirements := str ("job") } =
      str ("Job requirements:\n") ++ str ("job")
        ++ str ("\n\n---\nOriginal instruction to the generator:\n") ++ str ("i")
        ++ str ("\n\n---\nSource text (CV):\n") ++ str ("cv")
        ++ str ("\n\n---\nGenerator's output (3 experiences + 2-line summaries):\n") ++ str ("out")
        ++ str ("\n\nScore how well the generator picked 3 experiences that best meet the job requirements and summarised them (0–10).") := by
  constructor
  · exact (expected_block_delimited (str ("out")) _).2.1 (str ("E1")) rfl (by decide)
  · exact (expected_block_delimited (str ("out")) _).2.2 (fun r h => nomatch h)

/-- C10: the evaluation request embeds the target specification (job
requirements), the instruction that produced the candidate, the full
source text (CV) and the full candidate output verbatim as contiguous
segments — no length bound or truncation is applied to any of them. -/
theorem request_embeds_in_full (generatorOutput : Str) (ctx : DiscriminatorContext) :
    (ctx.jobRequirements <:+: userPrompt generatorOutput ctx) ∧
    (ctx.generatorPrompt <:+: userPrompt generatorOutput ctx) ∧
    (ctx.cvContent <:+: userPrompt generatorOutput ctx) ∧
    (generatorOutput <:+: userPrompt generatorOutput ctx) := by
  refine ⟨⟨str ("Job requirements:\n"), ?_, ?_⟩,
    ⟨str ("Job requirements:\n") ++ ctx.jobRequirements
      ++ str ("\n\n---\nOriginal instruction to the generator:\n"), ?_, ?_⟩,
    ⟨str ("Job requirements:\n") ++ ctx.jobRequirements
      ++ str ("\n\n---\nOriginal instruction to the generator:\n") ++ ctx.generatorPrompt
      ++ str ("\n\n---\nSource text (CV):\n"), ?_, ?_⟩,
    ⟨str ("Job requirements:\n") ++ ctx.jobRequirements
      ++ str ("\n\n---\nOriginal instruction to the generator:\n") ++ ctx.generatorPrompt
      ++ str ("\n\n---\nSource text (CV):\n") ++ ctx.cvContent
      ++ expectedBlock ctx.expectedExperiences
      ++ str ("\n\n---\nGenerator's output (3 experiences + 2-line summaries):\n"), ?_, ?_⟩⟩
  · exact str ("\n\n---\nOriginal instruction to the generator:\n") ++ ctx.generatorPrompt
      ++ str ("\n\n---\nSource text (CV):\n") ++ ctx.cvContent
      ++ expectedBlock ctx.expectedExperiences
      ++ str ("\n\n---\nGenerator's output (3 experiences + 2-line summaries):\n") ++ generatorOutput
      ++ str ("\n\nScore how well the generator picked 3 experiences that best meet the job requirements and summarised them (0–10).")
  · simp [userPrompt, List.append_assoc]
  · exact str ("\n\n---\nSource text (CV):\n") ++ ctx.cvContent
      ++ expectedBlock ctx.expectedExperiences
      ++ str ("\n\n---\nGenerator's output (3 experiences + 2-line summaries):\n") ++ generatorOutput
      ++ str ("\n\nScore how well the generator picked 3 experiences that best meet the job requirements and summarised them (0–10).")
  · simp [userPrompt, List.append_assoc]
  · exact expectedBlock ctx.expectedExperiences
      ++ str ("\n\n---\nGenerator's output (3 experiences + 2-line summaries):\n") ++ generatorOutput
      ++ str ("\n\nScore how well the generator picked 3 experiences that best meet the job requirements and summarised them (0–10).")
  · simp [userPrompt, List.append_assoc]
  · exact str ("\n\nScore how well the generator picked 3 experiences that best meet the job requirements and summarised them (0–10).")
  · simp [userPrompt, List.append_assoc]

/-- C5 witness: a raw score of 7 passes through unchanged and in range; a
raw score of 11 is rejected as a shape-validation failure. -/
theorem score_bound_validated_witness :
    (DiscriminatorOutputSchemaBound 7 ∧ (7 : ℚ) = 7) ∧
    run [] { generatorPrompt := [], cvContent := [], jobRequirements := [] }
        (fun _ => invokeValidatingSchema (.success 11)) =
      AIInvokeResult.failure (str ("shape-validation failure")) := by
  constructor
  · exact (score_bound_validated []
      { generatorPrompt := [], cvContent := [], jobRequirements := [] } 7).1 7 (by decide)
  · exact (score_bound_validated []
      { generatorPrompt := [], cvContent := [], jobRequirements := [] } 11).2 (by decide)

end Discriminator

namespace Configurator

/-- Filling the deferred field of the entry just pushed touches nothing
before it. -/
theorem setLastSuggested_append_singleton (h : List ConfiguratorHistoryEntry)
    (e : ConfiguratorHistoryEntry) (s : Str) :
    setLastSuggested (h ++ [e]) s = h ++ [{ e with suggestedNextPrompt := some s }] := by
  simp [setLastSuggested]

/-- The request a `suggestNextPrompt` call sends does not depend on the
external behaviour: it is rendered from the history with the new entry
already pushed. -/
theorem suggestNextPrompt_userPrompt (p : SuggestParams)
    (h : List ConfiguratorHistoryEntry)
    (invoke : Str → AIInvokeResult ConfiguratorOutput) :
    (suggestNextPrompt p h invoke).userPrompt =
      userPrompt (h ++ [newEntry p]) p.generatorPrompt p.score
        p.cvContent p.jobRequirements := by
  unfold suggestNextPrompt
  cases invoke (userPrompt (h ++ [newEntry p]) p.generatorPrompt p.score
      p.cvContent p.jobRequirements) <;> simp

/-- The history after a `suggestNextPrompt` call is the old history with the
new entry appended, the deferred field possibly filled. -/
theorem suggestNextPrompt_history_cases (p : SuggestParams)
    (h : List ConfiguratorHistoryEntry)
    (invoke : Str → AIInvokeResult ConfiguratorOutput) :
    (suggestNextPrompt p h invoke).history = h ++ [newEntry p] ∨
    ∃ s, (suggestNextPrompt p h invoke).history =
      h ++ [{ newEntry p with suggestedNextPrompt := some s }] := by
  unfold suggestNextPrompt
  cases invoke (userPrompt (h ++ [newEntry p]) p.generatorPrompt p.score
      p.cvContent p.jobRequirements) with
  | success out =>
    by_cases hs : jsTrim out.suggestedPrompt = []
    · left; simp [hs]
    · right
      exact ⟨jsTrim out.suggestedPrompt, by simp [hs, setLastSuggested_append_singleton]⟩
  | failure e => left; simp

/-- One `suggestNextPrompt` call grows the history by exactly one entry,
whatever the external invocation does. -/
theorem suggestNextPrompt_history_length (p : SuggestParams)
    (h : List ConfiguratorHistoryEntry)
    (invoke : Str → AIInvokeResult ConfiguratorOutput) :
    ((suggestNextPrompt p h invoke).history).length = h.length + 1 := by
  rcases suggestNextPrompt_history_cases p h invoke with hc | ⟨s, hc⟩ <;>
    simp [hc]

/-- A sequence of calls grows the history by the number of calls. -/
theorem runCalls_length
    (calls : List (SuggestParams × (Str → AIInvokeResult ConfiguratorOutput)))
    (h : List ConfiguratorHistoryEntry) :
    (runCalls calls h).length = h.length + calls.length := by
  induction calls generalizing h with
  | nil => simp [runCalls]
  | cons c cs ih =>
    simp only [runCalls, List.foldl_cons, List.length_cons]
    have := ih (suggestNextPrompt c.1 h c.2).history
    simp only [runCalls] at this
    rw [this, suggestNextPrompt_history_length]
    omega

/-- C1: every `suggestNextPrompt` call — successful or failed — appends
exactly one run record, so after any sequence of N calls starting from an
empty history the history length is N.  The record is appended before the
external invocation is consulted (the theorem quantifies over every
external behaviour `invoke`, and the appended entry is present in both the
success and the failure branch). -/
theorem history_length_after_calls :
    (∀ (p : SuggestParams) (h : List ConfiguratorHistoryEntry)
        (invoke : Str → AIInvokeResult ConfiguratorOutput),
      ((suggestNextPrompt p h invoke).history).length = h.length + 1) ∧
    (∀ calls : List (SuggestParams × (Str → AIInvokeResult ConfiguratorOutput)),
      (runCalls calls []).length = calls.length) := by
  refine ⟨suggestNextPrompt_history_length, fun calls => ?_⟩
  simpa using runCalls_length calls []

/-- C2: when the external invocation succeeds, the returned instruction is
the trimmed response when that is non-empty — and is then also written into
the deferred field of the run record appended by this call (the last one) —
and is exactly the caller's original instruction when the trimmed response
is empty, the deferred field then staying unset. -/
theorem suggest_success_result (p : SuggestParams)
    (h : List ConfiguratorHistoryEntry)
    (invoke : Str → AIInvokeResult ConfiguratorOutput) (out : ConfiguratorOutput)
    (hinv : invoke ((suggestNextPrompt p h invoke).userPrompt) =
      AIInvokeResult.success out) :
    (jsTrim out.suggestedPrompt ≠ [] →
      (suggestNextPrompt p h invoke).result =
        AIInvokeResult.success (jsTrim out.suggestedPrompt) ∧
      (suggestNextPrompt p h invoke).history.getLast? =
        some { newEntry p with suggestedNextPrompt := some (jsTrim out.suggestedPrompt) }) ∧
    (jsTrim out.suggestedPrompt = [] →
      (suggestNextPrompt p h invoke).result = AIInvokeResult.success p.generatorPrompt ∧
      (suggestNextPrompt p h invoke).history.getLast? = some (newEntry p)) := by
  rw [suggestNextPrompt_userPrompt] at hinv
  unfold suggestNextPrompt
  rw [hinv]
  constructor
  · intro hs
    simp [hs, setLastSuggested_append_singleton, newEntry]
  · intro hs
    simp [hs]

/-- C2 witness: a concrete successful call whose response carries
surrounding whitespace, and a concrete call whose response is whitespace
only. -/
theorem suggest_success_result_witness :
    (jsTrim (str (" next prompt ")) ≠ [] ∧
      (suggestNextPrompt
          { generatorPrompt := str ("p0"), generatorConfig := ⟨7/10, 1024, none⟩, score := 4 }
          [] (fun _ => .success { suggestedPrompt := str (" next prompt ") })).result =
        AIInvokeResult.success (jsTrim (str (" next prompt "))) ∧
      (suggestNextPrompt
          { generatorPrompt := str ("p0"), generatorConfig := ⟨7/10, 1024, none⟩, score := 4 }
          [] (fun _ => .success { suggestedPrompt := str (" next prompt ") })).history.getLast? =
        some { generatorPrompt := str ("p0"), generatorConfig := ⟨7/10, 1024, none⟩,
               score := 4, suggestedNextPrompt := some (jsTrim (str (" next prompt "))) }) ∧
    (jsTrim (str ("   ")) = [] ∧
      (suggestNextPrompt
          { generatorPrompt := str ("p0"), generatorConfig := ⟨7/10, 1024, none⟩, score := 4 }
          [] (fun _ => .success { suggestedPrompt := str ("   ") })).result =
        AIInvokeResult.success (str ("p0")) ∧
      (suggestNextPrompt
          { generatorPrompt := str ("p0"), generatorConfig := ⟨7/10, 1024, none⟩, score := 4 }
          [] (fun _ => .success { suggestedPrompt := str ("   ") })).history.getLast? =
        some { generatorPrompt := str ("p0"), generatorConfig := ⟨7/10, 1024, none⟩, score := 4 }) := by
  refine ⟨⟨by decide, ?_⟩, ⟨by decide, ?_⟩⟩
  · exact (suggest_success_result _ [] _ _ rfl).1 (by decide)
  · exact (suggest_success_result _ [] _ _ rfl).2 (by decide)

/-- C3: when the external invocation fails, the run record appended at the
start of the call remains in history with its deferred field unset, and the
failure is returned exactly as received. -/
theorem suggest_failure_passthrough (p : SuggestParams)
    (h : List ConfiguratorHistoryEntry)
    (invoke : Str → AIInvokeResult ConfiguratorOutput) (e : Str)
    (hinv : invoke ((suggestNextPrompt p h invoke).userPrompt) =
      AIInvokeResult.failure e) :
    (suggestNextPrompt p h invoke).result = AIInvokeResult.failure e ∧
    (suggestNextPrompt p h invoke).history = h ++ [newEntry p] ∧
    (newEntry p).suggestedNextPrompt = none := by
  rw [suggestNextPrompt_userPrompt] at hinv
  unfold suggestNextPrompt
  rw [hinv]
  exact ⟨rfl, rfl, rfl⟩

set_option maxRecDepth 400000 in
/-- C4 counterexample: for the spec's scenario — empty history, instruction
"Pick 3 experiences matching the job.", score 4 — the request sent to the
external invocation does not contain "No previous runs yet.".  The run
record is pushed before the history block is rendered
(`discriminator.ts:165` precedes `:167`), so the empty-history branch of
the history block is unreachable. -/
theorem c4_request_lacks_no_previous_runs :
    ¬ (str ("No previous runs yet.") <:+:
      (suggestNextPrompt
        { generatorPrompt := str ("Pick 3 experiences matching the job.")
          generatorConfig := ⟨7/10, 1024, none⟩
          score := 4 }
        []
        (fun _ => .success
          { suggestedPrompt := str ("Emphasize DevOps and CI/CD experience.") })).userPrompt) := by
  decide

set_option maxRecDepth 400000 in
/-- C4 amended: for the scenario call on an empty history, the request
contains the literal current instruction and score — in the current-run
line and, because the record is appended before the request is rendered,
also as "Run 1" of the history block — but not "No previous runs yet.". -/
theorem c4_request_contents_empty_history :
    (str ("Current run we just got the score for: prompt=\"Pick 3 experiences matching the job.\", score=4.") <:+:
      (suggestNextPrompt
        { generatorPrompt := str ("Pick 3 experiences matching the job.")
          generatorConfig := ⟨7/10, 1024, none⟩
          score := 4 }
        []
        (fun _ => .success
          { suggestedPrompt := str ("Emphasize DevOps and CI/CD experience.") })).userPrompt) ∧
    (str ("Run 1: prompt=\"Pick 3 experiences matching the job.\", score=4") <:+:
      (suggestNextPrompt
        { generatorPrompt := str ("Pick 3 experiences matching the job.")
          generatorConfig := ⟨7/10, 1024, none⟩
          score := 4 }
        []
        (fun _ => .success
          { suggestedPrompt := str ("Emphasize DevOps and CI/CD experience.") })).userPrompt) ∧
    ¬ (str ("No previous runs yet.") <:+:
      (suggestNextPrompt
        { generatorPrompt := str ("Pick 3 experiences matching the job.")
          generatorConfig := ⟨7/10, 1024, none⟩
          score := 4 }
        []
        (fun _ => .success
          { suggestedPrompt := str ("Emphasize DevOps and CI/CD experience.") })).userPrompt) := by
  refine ⟨?_, ?_, ?_⟩ <;> decide

/-- C7: the rendered excerpt of a supplied CV or job-requirements string is
exactly the first 1500 characters followed by the `...` truncation marker
when the string is longer than 1500 characters, and the unchanged string
with no marker otherwise; the excerpt blocks are embedded verbatim in the
request. -/
theorem excerpt_truncation (s : Str) :
    (s.length > 1500 →
      cvBlock (some s) =
        str ("\n\nSource CV context (excerpt):\n") ++ (s.take 1500 ++ str ("...")) ∧
      jobBlock (some s) =
        str ("\n\nJob requirements (excerpt):\n") ++ (s.take 1500 ++ str ("..."))) ∧
    (s.length ≤ 1500 →
      cvBlock (some s) = str ("\n\nSource CV context (excerpt):\n") ++ s ∧
      jobBlock (some s) = str ("\n\nJob requirements (excerpt):\n") ++ s) ∧
    (∀ hist gp sc job, ∃ a b,
      userPrompt hist gp sc (some s) job = a ++ (cvBlock (some s) ++ b)) ∧
    (∀ hist gp sc cv, ∃ a b,
      userPrompt hist gp sc cv (some s) = a ++ (jobBlock (some s) ++ b)) := by
  refine ⟨fun hlong => ?_, fun hshort => ?_, fun hist gp sc job => ?_, fun hist gp sc cv => ?_⟩
  · constructor <;> simp [cvBlock, jobBlock, hlong, List.append_assoc]
  · constructor <;>
      simp [cvBlock, jobBlock, not_lt.mpr hshort, List.take_of_length_le hshort]
  · exact ⟨str ("History of runs (most recent last):\n") ++ historyBlock hist
      ++ str ("\n\nCurrent run we just got the score for: prompt=\"") ++ gp
      ++ str ("\", score=") ++ showNum sc ++ str (".") ++ jobBlock job,
      str ("\n\nSuggest the next generator prompt (instruction only, no CV or job text) to maximise the score. Reply with only the new instruction text."),
      by simp [userPrompt, List.append_assoc]⟩
  · exact ⟨str ("History of runs (most recent last):\n") ++ historyBlock hist
      ++ str ("\n\nCurrent run we just got the score for: prompt=\"") ++ gp
      ++ str ("\", score=") ++ showNum sc ++ str ("."),
      cvBlock cv
      ++ str ("\n\nSuggest the next generator prompt (instruction only, no CV or job text) to maximise the score. Reply with only the new instruction text."),
      by simp [userPrompt, List.append_assoc]⟩

set_option maxRecDepth 400000 in
/-- C7 witness: a 1501-character string is cut to 1500 characters plus the
marker; an 8-character string is embedded unchanged. -/
theorem excerpt_truncation_witness :
    ((List.replicate 1501 'a').length > 1500 ∧
      cvBlock (some (List.replicate 1501 'a')) =
        str ("\n\nSource CV context (excerpt):\n")
          ++ ((List.replicate 1501 'a').take 1500 ++ str ("...")) ∧
      jobBlock (some (List.replicate 1501 'a')) =
        str ("\n\nJob requirements (excerpt):\n")
          ++ ((List.replicate 1501 'a').take 1500 ++ str ("..."))) ∧
    ((str ("short cv")).length ≤ 1500 ∧
      cvBlock (some (str ("short cv"))) =
        str ("\n\nSource CV context (excerpt):\n") ++ str ("short cv") ∧
      jobBlock (some (str ("short cv"))) =
        str ("\n\nJob requirements (excerpt):\n") ++ str ("short cv")) := by
  refine ⟨⟨by simp, (excerpt_truncation _).1 (by simp)⟩,
    ⟨by decide, (excerpt_truncation _).2.1 (by decide)⟩⟩

set_option maxRecDepth 400000 in
/-- C8 counterexample: a previously suggested next instruction of only 5
characters — well under the 60-character preview limit — is still rendered
with the `...` truncation marker: the marker on the suggested-next-prompt
preview is appended unconditionally (`discriminator.ts:174`), not only when
the text was cut. -/
theorem c8_short_suggestion_still_marked :
    historyLine 0
      { generatorPrompt := str ("p")
        generatorConfig := ⟨7/10, 1024, none⟩
        score := 4
        suggestedNextPrompt := some (str ("short")) } =
      str ("Run 1: prompt=\"p\", score=4 (suggested next prompt: \"short...\")") ∧
    (str ("short")).length ≤ 60 ∧
    historyLine 0
      { generatorPrompt := str ("p")
        generatorConfig := ⟨7/10, 1024, none⟩
        score := 4
        suggestedNextPrompt := some (str ("short")) } ≠
      str ("Run 1: prompt=\"p\", score=4 (suggested next prompt: \"short\")") := by
  refine ⟨by decide, by decide, by decide⟩

/-- C8 amended: in a history line, the instruction preview is the first 120
characters with the `...` marker appended exactly when the instruction was
longer than 120 characters; the suggested-next-instruction preview is the
first 60 characters with the `...` marker appended unconditionally, whether
or not the text was cut. -/
theorem history_line_previews (i : ℕ) (e : ConfiguratorHistoryEntry) :
    (e.generatorPrompt.length ≤ 120 →
      promptPreview e.generatorPrompt = e.generatorPrompt) ∧
    (e.generatorPrompt.length > 120 →
      promptPreview e.generatorPrompt = e.generatorPrompt.take 120 ++ str ("...")) ∧
    (∀ s, e.suggestedNextPrompt = some s →
      historyLine i e =
        str ("Run ") ++ showNat (i + 1) ++ str (": prompt=\"") ++ promptPreview e.generatorPrompt
          ++ str ("\", score=") ++ showNum e.score
          ++ (str (" (suggested next prompt: \"") ++ s.take 60 ++ str ("...\")"))) ∧
    (e.suggestedNextPrompt = none →
      historyLine i e =
        str ("Run ") ++ showNat (i + 1) ++ str (": prompt=\"") ++ promptPreview e.generatorPrompt
          ++ str ("\", score=") ++ showNum e.score) := by
  refine ⟨fun hshort => ?_, fun hlong => ?_, fun s hs => ?_, fun hs => ?_⟩
  · simp [promptPreview, not_lt.mpr hshort, List.take_of_length_le hshort]
  · simp [promptPreview, hlong]
  · simp [historyLine, hs, suggestedPreviewSegment, List.append_assoc]
  · simp [historyLine, hs]

/-- C8 amended witness: a 121-character instruction is cut and marked, a
1-character instruction is not; a 5-character suggested next instruction is
rendered with the marker regardless. -/
theorem history_line_previews_witness :
    ((List.replicate 121 'b').length > 120 ∧
      promptPreview (List.replicate 121 'b') =
        (List.replicate 121 'b').take 120 ++ str ("...")) ∧
    ((str ("p")).length ≤ 120 ∧ promptPreview (str ("p")) = str ("p")) ∧
    historyLine 0
      { generatorPrompt := str ("p")
        generatorConfig := ⟨7/10, 1024, none⟩
        score := 4
        suggestedNextPrompt := some (str ("next")) } =
      str ("Run ") ++ showNat 1 ++ str (": prompt=\"") ++ promptPreview (str ("p"))
        ++ str ("\", score=") ++ showNum 4
        ++ (str (" (suggested next prompt: \"") ++ (str ("next")).take 60 ++ str ("...\")")) := by
  refine ⟨⟨by simp, ?_⟩, ⟨by decide, ?_⟩, ?_⟩
  · exact (history_line_previews 0
      { generatorPrompt := List.replicate 121 'b', generatorConfig := ⟨7/10, 1024, none⟩,
        score := 4 }).2.1 (by simp)
  · exact (history_line_previews 0
      { generatorPrompt := str ("p"), generatorConfig := ⟨7/10, 1024, none⟩,
        score := 4 }).1 (by decide)
  · exact (history_line_previews 0
      { generatorPrompt := str ("p"), generatorConfig := ⟨7/10, 1024, none⟩,
        score := 4, suggestedNextPrompt := some (str ("next")) }).2.2.1 (str ("next")) rfl

/-- C3 witness: a concrete failing call. -/
theorem suggest_failure_passthrough_witness :
    (suggestNextPrompt
        { generatorPrompt := str ("p0"), generatorConfig := ⟨7/10, 1024, none⟩, score := 4 }
        [] (fun _ => .failure (str ("provider unreachable")))).result =
      AIInvokeResult.failure (str ("provider unreachable")) ∧
    (suggestNextPrompt
        { generatorPrompt := str ("p0"), generatorConfig := ⟨7/10, 1024, none⟩, score := 4 }
        [] (fun _ => .failure (str ("provider unreachable")))).history =
      [] ++ [newEntry { generatorPrompt := str ("p0"), generatorConfig := ⟨7/10, 1024, none⟩, score := 4 }] ∧
    (newEntry { generatorPrompt := str ("p0"), generatorConfig := ⟨7/10, 1024, none⟩,
                score := 4 }).suggestedNextPrompt = none :=
  suggest_failure_passthrough _ [] _ _ rfl

end Configurator
